import Mathlib

/-!
# LAN bridge relay: hub (`src/index.js`) and client (`src/client.js`)

A shallow embedding of the relay hub's message handler and of the `LANBridge`
client class, followed by the properties of the specification that concern them.

Conventions of the embedding.

* A wire message is a JSON value (`Json`); `JSON.stringify` followed by
  `JSON.parse` on the other side is the identity on such values, so a send is
  recorded with the JSON value that is serialised.  A frame that `JSON.parse`
  rejects is `none`.
* A JavaScript value that may be `undefined` is a `JsVal = Option Json`.
* Every function returns the effects it performs (sends, timers, file writes)
  as a list, in program order, next to the new state.
* Library behaviour that the repository does not define (`Date.now()`, the
  result of `fs.existsSync`, whether `fs.mkdirSync` throws, whether `fs.writeFile`
  throws or reports an error, how `Buffer.from` treats an object argument) is an
  input.
* A handler passed to `onMessage` is identified by a number and a call of it is
  recorded as an effect; what the handler does when called is outside the model.
* The transport delivers the events of a socket to the handlers that `connect()`
  installed on it; a connection attempt that fails is reported by `error`
  followed by `close`.
-/

namespace LanBridge

/-! ## JSON values -/

/-- JSON values as produced by `JSON.parse`.  A number is identified by the text
that JavaScript prints for it (`String(n)`), which is all the code ever does with
a number. -/
inductive Json where
  | null
  | bool (b : Bool)
  | num (canon : String)
  | str (s : String)
  | arr (items : List Json)
  | obj (fields : List (String × Json))

/-- JavaScript value that may be `undefined` (`none`). -/
abbrev JsVal := Option Json

mutual
/-- JavaScript `ToString` on a JSON value (used by template literals and by
property keys). -/
def Json.toStr : Json → String
  | .null => "null"
  | .bool true => "true"
  | .bool false => "false"
  | .num c => c
  | .str s => s
  | .arr items => Json.joinStr items
  | .obj _ => "[object Object]"
/-- JavaScript `Array.prototype.join(",")`: elements separated by commas. -/
def Json.joinStr : List Json → String
  | [] => ""
  | [x] => Json.elemStr x
  | x :: y :: rest => Json.elemStr x ++ "," ++ Json.joinStr (y :: rest)
/-- One element inside `join`: `null` prints as the empty string. -/
def Json.elemStr : Json → String
  | .null => ""
  | .bool true => "true"
  | .bool false => "false"
  | .num c => c
  | .str s => s
  | .arr items => Json.joinStr items
  | .obj _ => "[object Object]"
end

/-- JavaScript `ToString` on a possibly undefined value. -/
def jsToString : JsVal → String
  | none => "undefined"
  | some v => v.toStr

/-- Own property of a parsed object: with duplicate keys in the JSON text the
last one wins. -/
def lookupField : List (String × Json) → String → JsVal
  | [], _ => none
  | (k, v) :: rest, key =>
    match lookupField rest key with
    | some w => some w
    | none => if k = key then some v else none

/-- Property read `v.key` on a non-null parsed value, for the keys the code reads
(`type`, `name`, `payload`): an object yields its own property, every other value
yields `undefined` (no primitive wrapper and no array defines these keys).
Reading a property of `null` throws; callers test `isNull` first. -/
def readField : Json → String → JsVal
  | .obj fields, key => lookupField fields key
  | _, _ => none

/-- Test `v === null`. -/
def Json.isNull : Json → Bool
  | .null => true
  | _ => false

/-- Strict equality `v === s` with a string literal `s`. -/
def isStr : JsVal → String → Bool
  | some (.str t), s => t == s
  | _, _ => false

/-- Result of `JSON.stringify` on an object literal: properties whose value is
`undefined` are left out. -/
def stringify (fields : List (String × JsVal)) : Json :=
  .obj (fields.filterMap fun kv => kv.2.map fun v => (kv.1, v))

/-! ## Relay hub (`src/index.js`) -/

/-- The `readyState` of a WebSocket. -/
inductive ReadyState where
  | CONNECTING
  | OPEN
  | CLOSING
  | CLOSED
  deriving DecidableEq, Repr

/-- One member of `wss.clients`: the socket object (identified by `id`) and its
`readyState` at the time of the iteration. -/
structure Session where
  id : Nat
  readyState : ReadyState
  deriving DecidableEq, Repr

/-- Result of `Buffer.from(payload, 'base64')`, kept symbolic: the bytes decoded
from a string, or the bytes copied from an array-like object. -/
inductive Buffer where
  | ofBase64 (s : String)
  | ofObject (src : Json)

/-- Inputs of one run of the message handler that come from the platform. -/
structure HubEnv where
  /-- Value of `Date.now()`. -/
  now : Nat
  /-- Result of `fs.existsSync(uploads)`. -/
  uploadsExists : Bool
  /-- Whether `fs.mkdirSync(uploads)` throws. -/
  mkdirThrows : Bool
  /-- Whether the call `fs.writeFile(...)` itself throws (it validates its
  arguments before starting the write, e.g. a path with a NUL character). -/
  writeThrows : Bool
  /-- Whether `Buffer.from` accepts the given array or object (array-likes and
  Buffer-shaped objects are copied, any other object is a `TypeError`). -/
  objectOk : Json → Bool

/-- Node's `Buffer.from(value, 'base64')`; `none` is a thrown `TypeError`.  A
string is decoded leniently and never rejected, whatever its characters; an
array or object is handled as `env.objectOk` says; `undefined`, `null`, booleans
and numbers throw. -/
def bufferFrom (env : HubEnv) : JsVal → Option Buffer
  | some (.str s) => some (.ofBase64 s)
  | some (.arr xs) => if env.objectOk (.arr xs) then some (.ofObject (.arr xs)) else none
  | some (.obj fs) => if env.objectOk (.obj fs) then some (.ofObject (.obj fs)) else none
  | _ => none

/-- Observable actions of the hub. -/
inductive HubEffect where
  /-- Call `s.send(JSON.stringify(data))` on the session with id `dest`. -/
  | send (dest : Nat) (data : Json)
  /-- Call `fs.mkdirSync(uploads)` that returned. -/
  | mkdirSync
  /-- Call `fs.writeFile(path.join(__dirname, 'uploads', fileName), data, cb)`
  that started the write. -/
  | writeFile (fileName : String) (data : Buffer)

/-- The state captured by the `fs.writeFile` callback: the originating socket,
the inbound `type` and the synthesized file name. -/
structure PendingWrite where
  ws : Nat
  type : JsVal
  fileName : String

/-- The loop `wss.clients.forEach(client => { if (client !== ws &&
client.readyState === WebSocket.OPEN) client.send(data) })`. -/
def broadcast : List Session → Nat → Json → List HubEffect
  | [], _, _ => []
  | client :: rest, ws, data =>
    if client.id ≠ ws ∧ client.readyState = ReadyState.OPEN then
      HubEffect.send client.id data :: broadcast rest ws data
    else
      broadcast rest ws data

/-- The envelope `{ type: 'error', payload: text }`. -/
def errorEnvelope (text : String) : Json :=
  stringify [("type", some (.str "error")), ("payload", some (.str text))]

/-- The object literal `{ type: 'text', payload: parsedMessage.payload }`. -/
def textEnvelope (payload : JsVal) : Json :=
  stringify [("type", some (.str "text")), ("payload", payload)]

/-- The object literal `{ type: parsedMessage.type, name: fileName, path:
'/uploads/' + fileName }`. -/
def fileEnvelope (type : JsVal) (fileName : String) : Json :=
  stringify [("type", type), ("name", some (.str fileName)),
    ("path", some (.str ("/uploads/" ++ fileName)))]

/-- The `catch (e)` block of the handler. -/
def catchBlock (ws : Nat) : List HubEffect :=
  [HubEffect.send ws (errorEnvelope "Invalid message format")]

/-- The file name built by the template literal in the image/file case. -/
def storageName (env : HubEnv) (parsedMessage : Json) : String :=
  "received_" ++ toString env.now ++ "_" ++ jsToString (readField parsedMessage "name")

/-- The `ws.on('message', ...)` handler up to the point where it returns: the
effects performed synchronously and, when `fs.writeFile` was started, the state
its callback captured.  `message` is `none` when `JSON.parse` throws. -/
def wsOnMessage (env : HubEnv) (clients : List Session) (ws : Nat) (message : Option Json) :
    List HubEffect × Option PendingWrite :=
  match message with
  | none => (catchBlock ws, none)
  | some parsedMessage =>
    if parsedMessage.isNull then
      -- `parsedMessage.type` throws a TypeError
      (catchBlock ws, none)
    else
      let type := readField parsedMessage "type"
      if isStr type "text" then
        (broadcast clients ws (textEnvelope (readField parsedMessage "payload")), none)
      else if isStr type "image" || isStr type "file" then
        let fileName := storageName env parsedMessage
        if !env.uploadsExists && env.mkdirThrows then
          (catchBlock ws, none)
        else
          let made : List HubEffect := if !env.uploadsExists then [HubEffect.mkdirSync] else []
          match bufferFrom env (readField parsedMessage "payload") with
          | none => (made ++ catchBlock ws, none)
          | some data =>
            if env.writeThrows then
              (made ++ catchBlock ws, none)
            else
              (made ++ [HubEffect.writeFile fileName data],
               some { ws := ws, type := type, fileName := fileName })
      else
        ([HubEffect.send ws (errorEnvelope "Unknown message type")], none)

/-- The callback passed to `fs.writeFile`, run later with the error flag and the
contents of `wss.clients` at that time. -/
def writeFileCallback (p : PendingWrite) (err : Bool) (clients : List Session) :
    List HubEffect :=
  if err then
    [HubEffect.send p.ws (errorEnvelope "Failed to save file")]
  else
    broadcast clients p.ws (fileEnvelope p.type p.fileName)

/-- One inbound message handled to completion: the synchronous part followed,
if a write was started, by its callback (`writeErr` is the outcome of the write,
`later` the client set when the callback runs). -/
def handle (env : HubEnv) (clients later : List Session) (ws : Nat) (message : Option Json)
    (writeErr : Bool) : List HubEffect :=
  match wsOnMessage env clients ws message with
  | (effects, none) => effects
  | (effects, some p) => effects ++ writeFileCallback p writeErr later

/-- The sends among a list of effects, as (recipient, envelope) pairs. -/
def sendsOf : List HubEffect → List (Nat × Json)
  | [] => []
  | HubEffect.send dest data :: rest => (dest, data) :: sendsOf rest
  | _ :: rest => sendsOf rest

/-- Number of sends addressed to session `id`. -/
def sendCount (effects : List HubEffect) (id : Nat) : Nat :=
  ((sendsOf effects).filter fun s => s.1 == id).length

/-- The sessions a broadcast from `ws` reaches: not the originator and Open. -/
def recipients (clients : List Session) (ws : Nat) : List Session :=
  clients.filter fun c => c.id != ws && c.readyState == ReadyState.OPEN

/-- The envelope is a text envelope: `parsedMessage.type === 'text'`. -/
def isText (parsedMessage : Json) : Bool :=
  isStr (readField parsedMessage "type") "text"

/-- The envelope is a file or image envelope. -/
def isBinary (parsedMessage : Json) : Bool :=
  isStr (readField parsedMessage "type") "image" || isStr (readField parsedMessage "type") "file"

/-- Persistence of a file or image envelope succeeds: the uploads directory is
there or can be made, `Buffer.from` accepts the payload, and `fs.writeFile`
neither throws nor reports an error. -/
def persists (env : HubEnv) (parsedMessage : Json) (writeErr : Bool) : Bool :=
  !(!env.uploadsExists && env.mkdirThrows) &&
    (bufferFrom env (readField parsedMessage "payload")).isSome && !env.writeThrows && !writeErr

/-- The fields of a `LANBridge` instance.  A socket is identified by the number
of the `connect()` call that created it; a handler by a number; the own
properties of `messageHandlers` are kept in insertion order. -/
structure LANBridge where
  serverUrl : String
  ws : Option Nat
  isConnected : Bool
  messageHandlers : List (String × List Nat)
  reconnectAttempts : Nat
  maxReconnectAttempts : Nat
  reconnectDelay : Nat
  deriving DecidableEq, Repr

/-- The `File` argument of `sendFile`: its name and declared media type. -/
structure File where
  name : String
  type : String
  deriving DecidableEq, Repr

/-- Observable actions of the client. -/
inductive ClientEffect where
  /-- The call `new WebSocket(serverUrl)` of connect call `call` returned a socket. -/
  | newWebSocket (call : Nat)
  /-- The promise returned by connect call `call` is resolved. -/
  | resolve (call : Nat)
  /-- The promise returned by connect call `call` is rejected. -/
  | reject (call : Nat)
  /-- Call `setTimeout(() => this.connect().catch(...), delay)`. -/
  | setTimeout (delay : Nat)
  /-- Call `send(JSON.stringify(data))` on socket `sock`. -/
  | send (sock : Nat) (data : Json)
  /-- Call `close()` on socket `sock`. -/
  | close (sock : Nat)
  /-- Call `handler(message)`. -/
  | invoke (handler : Nat) (message : Json)
  /-- Call `reader.readAsDataURL(file)`. -/
  | readAsDataURL (file : File)
  /-- The promise returned by `sendFile` is resolved. -/
  | resolveSend
  /-- The promise returned by `sendFile` is rejected with `new Error(reason)`. -/
  | rejectSend (reason : String)

/-- What a call of `sendText` gives back to its caller. -/
inductive SendTextResult where
  | returned (value : Bool)
  /-- A `TypeError` (`this.ws` is `null`). -/
  | threw
  deriving DecidableEq, Repr

namespace LANBridge

/-- The address used when the constructor gets no argument. -/
def defaultUrl : String := "ws://localhost:8080"

/-- The constructor. -/
def new (serverUrl : String) : LANBridge :=
  { serverUrl := serverUrl
    ws := none
    isConnected := false
    messageHandlers := []
    reconnectAttempts := 0
    maxReconnectAttempts := 5
    reconnectDelay := 1000 }

/-- The method `attemptReconnect()`. -/
def attemptReconnect (self : LANBridge) : LANBridge × List ClientEffect :=
  if self.reconnectAttempts < self.maxReconnectAttempts then
    let self1 := { self with reconnectAttempts := self.reconnectAttempts + 1 }
    (self1, [ClientEffect.setTimeout (self1.reconnectDelay * self1.reconnectAttempts)])
  else
    (self, [])

/-- The method `connect()`, call number `call`; `ctorThrows` says whether
`new WebSocket(this.serverUrl)` throws.  The four handlers it installs on the
new socket are `onopen`, `onmessage`, `onclose` and `onerror` below. -/
def connect (self : LANBridge) (call : Nat) (ctorThrows : Bool) :
    LANBridge × List ClientEffect :=
  if ctorThrows then
    (self, [ClientEffect.reject call])
  else
    ({ self with ws := some call }, [ClientEffect.newWebSocket call])

/-- The handler `ws.onopen` installed by connect call `call`. -/
def onopen (self : LANBridge) (call : Nat) : LANBridge × List ClientEffect :=
  ({ self with isConnected := true, reconnectAttempts := 0 }, [ClientEffect.resolve call])

/-- The handler `ws.onclose` installed by `connect()`; it stays on the socket
object whatever happens to `this.ws` afterwards. -/
def onclose (self : LANBridge) : LANBridge × List ClientEffect :=
  attemptReconnect { self with isConnected := false }

/-- The handler `ws.onerror` installed by connect call `call`. -/
def onerror (self : LANBridge) (call : Nat) : LANBridge × List ClientEffect :=
  (self, [ClientEffect.reject call])

/-- The callback given to `setTimeout`: `this.connect().catch(() => {})`. -/
def timerCallback (self : LANBridge) (call : Nat) (ctorThrows : Bool) :
    LANBridge × List ClientEffect :=
  connect self call ctorThrows

/-- The method `sendText(text)`; `now` is `Date.now()`. -/
def sendText (self : LANBridge) (text : JsVal) (now : Nat) :
    LANBridge × List ClientEffect × SendTextResult :=
  if !self.isConnected then
    (self, [], SendTextResult.returned false)
  else
    let message := stringify
      [("type", some (.str "text")), ("payload", text), ("timestamp", some (.num (toString now)))]
    match self.ws with
    | none => (self, [], SendTextResult.threw)
    | some sock => (self, [ClientEffect.send sock message], SendTextResult.returned true)

/-- The method `sendFile(file)` up to the point where it returns its promise. -/
def sendFile (self : LANBridge) (file : File) : LANBridge × List ClientEffect :=
  if !self.isConnected then
    (self, [ClientEffect.rejectSend "Not connected to server"])
  else
    (self, [ClientEffect.readAsDataURL file])

/-- The handler `reader.onload` of `sendFile(file)`; `result` is `reader.result`
and `now` is `Date.now()`.  With `this.ws` equal to `null` the send throws. -/
def readerOnload (self : LANBridge) (file : File) (result : String) (now : Nat) :
    LANBridge × List ClientEffect :=
  let base64Data : JsVal := ((result.splitOn ",").get? 1).map Json.str
  let message := stringify
    [("type", some (.str (if file.type.startsWith "image/" then "image" else "file"))),
     ("name", some (.str file.name)), ("payload", base64Data),
     ("timestamp", some (.num (toString now)))]
  match self.ws with
  | none => (self, [])
  | some sock => (self, [ClientEffect.send sock message, ClientEffect.resolveSend])

/-- The handler `reader.onerror` of `sendFile(file)`. -/
def readerOnerror (self : LANBridge) : LANBridge × List ClientEffect :=
  (self, [ClientEffect.rejectSend "Failed to read file"])

/-- The method `disconnect()`. -/
def disconnect (self : LANBridge) : LANBridge × List ClientEffect :=
  match self.ws with
  | some sock => ({ self with ws := none, isConnected := false }, [ClientEffect.close sock])
  | none => (self, [])

end LANBridge

/-- The timers set by a list of effects. -/
def timersOf : List ClientEffect → List Nat
  | [] => []
  | ClientEffect.setTimeout delay :: rest => delay :: timersOf rest
  | _ :: rest => timersOf rest

/-- The transmissions made by a list of effects. -/
def transmissionsOf : List ClientEffect → List (Nat × Json)
  | [] => []
  | ClientEffect.send sock data :: rest => (sock, data) :: transmissionsOf rest
  | _ :: rest => transmissionsOf rest

/-- The sockets created by a list of effects. -/
def socketsOf : List ClientEffect → List Nat
  | [] => []
  | ClientEffect.newWebSocket call :: rest => call :: socketsOf rest
  | _ :: rest => socketsOf rest

/-- A client in its environment: the object, the delays of the timers that are
set and have not fired yet, everything the client did so far, and the number the
next `connect()` call gets. -/
structure World where
  client : LANBridge
  pending : List Nat
  trace : List ClientEffect
  nextCall : Nat

namespace World

/-- Record the outcome of running one piece of client code. -/
def perform (w : World) (r : LANBridge × List ClientEffect) : World :=
  { w with client := r.1, pending := w.pending ++ timersOf r.2, trace := w.trace ++ r.2 }

/-- The world of a client observed from now on: no timer pending, nothing
recorded yet, and `nextCall` the number of its next `connect()` call. -/
def start (client : LANBridge) (nextCall : Nat) : World :=
  { client := client, pending := [], trace := [], nextCall := nextCall }

/-- The application calls `connect()`. -/
def connectCall (w : World) : World :=
  { w with nextCall := w.nextCall + 1 }.perform (w.client.connect w.nextCall false)

/-- The application calls `disconnect()`. -/
def disconnectCall (w : World) : World :=
  w.perform w.client.disconnect

/-- The transport fires `open` on the socket of connect call `call`. -/
def openEvent (w : World) (call : Nat) : World :=
  w.perform (w.client.onopen call)

/-- The transport fires `error` on the socket of connect call `call`. -/
def errorEvent (w : World) (call : Nat) : World :=
  w.perform (w.client.onerror call)

/-- The transport fires `close` on a socket created by `connect()`. -/
def closeEvent (w : World) : World :=
  w.perform w.client.onclose

/-- The oldest pending timer fires and its callback runs. -/
def fireTimer (w : World) : World :=
  match w.pending with
  | [] => w
  | _ :: rest =>
    { w with pending := rest, nextCall := w.nextCall + 1 }.perform
      (w.client.timerCallback w.nextCall false)

/-- A connection attempt that fails: as the WebSocket standard prescribes, the
transport fires `error` and then `close` on the socket. -/
def failedAttempt (w : World) (call : Nat) : World :=
  (w.errorEvent call).closeEvent

/-- The pending retry runs and the attempt it makes fails. -/
def failedRetry (w : World) : World :=
  w.fireTimer.failedAttempt w.nextCall

/-- Retries that all fail, for as long as a retry is scheduled (at most `fuel`
of them). -/
def retryLoop : Nat → World → World
  | 0, w => w
  | fuel + 1, w =>
    match w.pending with
    | [] => w
    | _ :: _ => retryLoop fuel w.failedRetry

end World

/-! ## Concrete inputs used to exercise the statements -/

/-- A platform where the uploads directory exists and `Date.now()` is 17. -/
def demoEnv : HubEnv :=
  { now := 17, uploadsExists := true, mkdirThrows := false, writeThrows := false,
    objectOk := fun _ => false }

/-- Three sessions: 1 and 2 are Open, 3 is Closed. -/
def demoClients : List Session :=
  [{ id := 1, readyState := ReadyState.OPEN }, { id := 2, readyState := ReadyState.OPEN },
   { id := 3, readyState := ReadyState.CLOSED }]

/-- A client whose connection (socket 0) is established. -/
def demoConnected : LANBridge :=
  { LANBridge.new LANBridge.defaultUrl with ws := some 0, isConnected := true }

/-- The envelope `sendText("hello")` transmits when `Date.now()` is 17. -/
def helloEnvelope : Json :=
  .obj [("type", .str "text"), ("payload", .str "hello"), ("timestamp", .num "17")]

theorem recipients_cons (c : Session) (rest : List Session) (ws : Nat) :
    recipients (c :: rest) ws
      = if c.id ≠ ws ∧ c.readyState = ReadyState.OPEN then c :: recipients rest ws
        else recipients rest ws := by
  unfold recipients
  by_cases h1 : c.id = ws <;> by_cases h2 : c.readyState = ReadyState.OPEN <;>
    simp [List.filter_cons, h1, h2]

theorem broadcast_eq_map (clients : List Session) (ws : Nat) (data : Json) :
    broadcast clients ws data
      = (recipients clients ws).map fun c => HubEffect.send c.id data := by
  induction clients with
  | nil => rfl
  | cons c rest ih =>
    rw [recipients_cons, broadcast]
    split <;> simp [ih]

theorem sendsOf_append (xs ys : List HubEffect) :
    sendsOf (xs ++ ys) = sendsOf xs ++ sendsOf ys := by
  induction xs with
  | nil => rfl
  | cons x rest ih => cases x <;> simp [sendsOf, ih]

theorem sendsOf_map_send (l : List Session) (data : Json) :
    sendsOf (l.map fun c => HubEffect.send c.id data) = l.map fun c => (c.id, data) := by
  induction l with
  | nil => rfl
  | cons c rest ih => simp [sendsOf, ih]

theorem sendsOf_broadcast (clients : List Session) (ws : Nat) (data : Json) :
    sendsOf (broadcast clients ws data) = (recipients clients ws).map fun c => (c.id, data) := by
  rw [broadcast_eq_map, sendsOf_map_send]

theorem sendCount_broadcast (clients : List Session) (ws : Nat) (data : Json) (id : Nat) :
    sendCount (broadcast clients ws data) id
      = ((recipients clients ws).filter fun c => c.id == id).length := by
  unfold sendCount
  rw [sendsOf_broadcast, List.filter_map, List.length_map]
  rfl

theorem recipients_self (clients : List Session) (ws : Nat) :
    ((recipients clients ws).filter fun c => c.id == ws).length = 0 := by
  rw [List.length_eq_zero, List.filter_eq_nil_iff]
  intro c hc
  have h := (List.mem_filter.mp hc).2
  simp only [Bool.and_eq_true, bne_iff_ne, ne_eq] at h
  simpa using h.1

theorem recipients_absent (clients : List Session) (ws id : Nat)
    (h : id ∉ clients.map Session.id) :
    ((recipients clients ws).filter fun c => c.id == id).length = 0 := by
  rw [List.length_eq_zero, List.filter_eq_nil_iff]
  intro c hc
  have hc2 : c ∈ clients := (List.mem_filter.mp hc).1
  have : c.id ≠ id := fun e => h (e ▸ List.mem_map_of_mem Session.id hc2)
  simpa using this

theorem recipients_count (clients : List Session) (ws : Nat)
    (hset : (clients.map Session.id).Nodup) (c : Session) (hc : c ∈ clients) :
    ((recipients clients ws).filter fun x => x.id == c.id).length
      = if c.id ≠ ws ∧ c.readyState = ReadyState.OPEN then 1 else 0 := by
  induction clients with
  | nil => cases hc
  | cons d rest ih =>
    rw [List.map_cons, List.nodup_cons] at hset
    rw [recipients_cons]
    rcases List.mem_cons.mp hc with e | hin
    · subst e
      have h0 := recipients_absent rest ws c.id hset.1
      split
      · rw [List.filter_cons_of_pos (by simp), List.length_cons, h0]
      · exact h0
    · have hne : d.id ≠ c.id := fun e => hset.1 (e ▸ List.mem_map_of_mem Session.id hin)
      have ih2 := ih hset.2 hin
      split
      · rw [List.filter_cons_of_neg (by simpa using hne)]
        exact ih2
      · exact ih2

theorem handle_text (env : HubEnv) (clients later : List Session) (ws : Nat)
    (parsedMessage : Json) (writeErr : Bool) (htext : isText parsedMessage = true) :
    handle env clients later ws (some parsedMessage) writeErr
      = broadcast clients ws (textEnvelope (readField parsedMessage "payload")) := by
  unfold isText at htext
  cases parsedMessage <;> simp_all [handle, wsOnMessage, Json.isNull, readField, isStr]

theorem isText_not_isBinary (parsedMessage : Json) (h : isBinary parsedMessage = true) :
    isStr (readField parsedMessage "type") "text" = false := by
  unfold isBinary at h
  generalize readField parsedMessage "type" = t at h ⊢
  rcases t with _ | t
  · rfl
  · cases t <;> simp_all [isStr]
    rcases h with h | h <;> simp [h]

theorem isBinary_not_null (parsedMessage : Json) (h : isBinary parsedMessage = true) :
    parsedMessage.isNull = false := by
  cases parsedMessage <;> simp_all [isBinary, readField, isStr, Json.isNull]

theorem handle_binary_ok (env : HubEnv) (clients later : List Session) (ws : Nat)
    (parsedMessage : Json) (writeErr : Bool) (data : Buffer)
    (hbin : isBinary parsedMessage = true)
    (hdir : (!env.uploadsExists && env.mkdirThrows) = false)
    (hbuf : bufferFrom env (readField parsedMessage "payload") = some data)
    (hwr : env.writeThrows = false) :
    handle env clients later ws (some parsedMessage) writeErr
      = ((if !env.uploadsExists then [HubEffect.mkdirSync] else [])
          ++ [HubEffect.writeFile (storageName env parsedMessage) data])
        ++ writeFileCallback
            { ws := ws, type := readField parsedMessage "type",
              fileName := storageName env parsedMessage } writeErr later := by
  have h1 := isText_not_isBinary parsedMessage hbin
  have h2 := isBinary_not_null parsedMessage hbin
  unfold isBinary at hbin
  simp only [handle, wsOnMessage, h1, h2, hbin, hdir, hbuf, hwr]
  simp

theorem handle_binary_nodir (env : HubEnv) (clients later : List Session) (ws : Nat)
    (parsedMessage : Json) (writeErr : Bool)
    (hbin : isBinary parsedMessage = true)
    (hdir : (!env.uploadsExists && env.mkdirThrows) = true) :
    handle env clients later ws (some parsedMessage) writeErr = catchBlock ws := by
  have h1 := isText_not_isBinary parsedMessage hbin
  have h2 := isBinary_not_null parsedMessage hbin
  unfold isBinary at hbin
  simp only [handle, wsOnMessage, h1, h2, hbin, hdir]
  simp

theorem handle_binary_nobuf (env : HubEnv) (clients later : List Session) (ws : Nat)
    (parsedMessage : Json) (writeErr : Bool)
    (hbin : isBinary parsedMessage = true)
    (hdir : (!env.uploadsExists && env.mkdirThrows) = false)
    (hbuf : bufferFrom env (readField parsedMessage "payload") = none) :
    handle env clients later ws (some parsedMessage) writeErr
      = (if !env.uploadsExists then [HubEffect.mkdirSync] else []) ++ catchBlock ws := by
  have h1 := isText_not_isBinary parsedMessage hbin
  have h2 := isBinary_not_null parsedMessage hbin
  unfold isBinary at hbin
  simp only [handle, wsOnMessage, h1, h2, hbin, hdir, hbuf]
  simp

theorem handle_binary_nowrite (env : HubEnv) (clients later : List Session) (ws : Nat)
    (parsedMessage : Json) (writeErr : Bool) (data : Buffer)
    (hbin : isBinary parsedMessage = true)
    (hdir : (!env.uploadsExists && env.mkdirThrows) = false)
    (hbuf : bufferFrom env (readField parsedMessage "payload") = some data)
    (hwr : env.writeThrows = true) :
    handle env clients later ws (some parsedMessage) writeErr
      = (if !env.uploadsExists then [HubEffect.mkdirSync] else []) ++ catchBlock ws := by
  have h1 := isText_not_isBinary parsedMessage hbin
  have h2 := isBinary_not_null parsedMessage hbin
  unfold isBinary at hbin
  simp only [handle, wsOnMessage, h1, h2, hbin, hdir, hbuf, hwr]
  simp

theorem handle_unknown (env : HubEnv) (clients later : List Session) (ws : Nat)
    (parsedMessage : Json) (writeErr : Bool)
    (htext : isText parsedMessage = false) (hbin : isBinary parsedMessage = false) :
    handle env clients later ws (some parsedMessage) writeErr
      = [HubEffect.send ws (errorEnvelope
          (if parsedMessage.isNull then "Invalid message format" else "Unknown message type"))] := by
  unfold isText at htext
  unfold isBinary at hbin
  by_cases hn : parsedMessage.isNull = true
  · simp [handle, wsOnMessage, hn, catchBlock]
  · simp only [Bool.not_eq_true] at hn
    simp only [handle, wsOnMessage, hn, htext, hbin]
    simp

theorem sendsOf_made (env : HubEnv) :
    sendsOf (if !env.uploadsExists then [HubEffect.mkdirSync] else []) = [] := by
  cases env.uploadsExists <;> rfl

/-- C1: a text envelope received from session `ws` is sent to exactly the members
of the client set that are not `ws` and are Open, once each and in iteration
order; `ws` itself is sent nothing and a session that is not Open is skipped. -/
theorem text_fanout_exact (env : HubEnv) (clients later : List Session) (ws : Nat)
    (parsedMessage : Json) (writeErr : Bool)
    (htext : isText parsedMessage = true) (hset : (clients.map Session.id).Nodup) :
    handle env clients later ws (some parsedMessage) writeErr
        = (recipients clients ws).map
            (fun c => HubEffect.send c.id (textEnvelope (readField parsedMessage "payload")))
    ∧ sendCount (handle env clients later ws (some parsedMessage) writeErr) ws = 0
    ∧ ∀ c ∈ clients, sendCount (handle env clients later ws (some parsedMessage) writeErr) c.id
        = if c.id ≠ ws ∧ c.readyState = ReadyState.OPEN then 1 else 0 := by
  rw [handle_text env clients later ws parsedMessage writeErr htext]
  refine ⟨broadcast_eq_map _ _ _, ?_, ?_⟩
  · rw [sendCount_broadcast, recipients_self]
  · intro c hc
    rw [sendCount_broadcast, recipients_count clients ws hset c hc]

/-- C1 at a concrete input: session 1 sends "hello" while 2 is Open and 3 is
Closed; only session 2 is sent the message. -/
theorem text_fanout_exact_witness :
    isText helloEnvelope = true ∧ (demoClients.map Session.id).Nodup
    ∧ handle demoEnv demoClients demoClients 1 (some helloEnvelope) false
        = (recipients demoClients 1).map
            (fun c => HubEffect.send c.id (textEnvelope (readField helloEnvelope "payload")))
    ∧ sendCount (handle demoEnv demoClients demoClients 1 (some helloEnvelope) false) 1 = 0
    ∧ ∀ c ∈ demoClients,
        sendCount (handle demoEnv demoClients demoClients 1 (some helloEnvelope) false) c.id
          = if c.id ≠ 1 ∧ c.readyState = ReadyState.OPEN then 1 else 0 :=
  ⟨by decide, by decide,
    text_fanout_exact demoEnv demoClients demoClients 1 helloEnvelope false (by decide)
      (by decide)⟩

theorem sendCount_single (ws id : Nat) (data : Json) :
    sendCount [HubEffect.send ws data] id = if ws = id then 1 else 0 := by
  by_cases h : ws = id <;> simp [sendCount, sendsOf, h]

theorem handle_binary_fails (env : HubEnv) (clients later : List Session) (ws : Nat)
    (parsedMessage : Json) (writeErr : Bool) (hbin : isBinary parsedMessage = true)
    (hfail : persists env parsedMessage writeErr = false) :
    ∃ text, sendsOf (handle env clients later ws (some parsedMessage) writeErr)
      = [(ws, errorEnvelope text)] := by
  by_cases hdir : (!env.uploadsExists && env.mkdirThrows) = true
  · rw [handle_binary_nodir env clients later ws parsedMessage writeErr hbin hdir]
    exact ⟨_, rfl⟩
  · simp only [Bool.not_eq_true] at hdir
    rcases hb : bufferFrom env (readField parsedMessage "payload") with _ | data
    · rw [handle_binary_nobuf env clients later ws parsedMessage writeErr hbin hdir hb,
        sendsOf_append, sendsOf_made]
      exact ⟨_, rfl⟩
    · cases hwr : env.writeThrows
      · have hw : writeErr = true := by
          cases writeErr
          · simp [persists, hdir, hb, hwr] at hfail
          · rfl
        subst hw
        rw [handle_binary_ok env clients later ws parsedMessage true data hbin hdir hb hwr,
          sendsOf_append, sendsOf_append, sendsOf_made]
        exact ⟨_, rfl⟩
      · rw [handle_binary_nowrite env clients later ws parsedMessage writeErr data hbin hdir hb
          hwr, sendsOf_append, sendsOf_made]
        exact ⟨_, rfl⟩

/-- C4: when the inbound message fails JSON parsing, or parses to something whose
type is none of text, file and image, or is a file or image envelope whose
persistence fails, the hub sends exactly one envelope, of type error, to the
originating session, and nothing to any other session; in the parse-failure case
its payload is "Invalid message format". -/
theorem failure_reported_to_originator_only (env : HubEnv) (clients later : List Session)
    (ws : Nat) (message : Option Json) (writeErr : Bool)
    (hfail : message = none
      ∨ (∃ p, message = some p ∧ isText p = false ∧ isBinary p = false)
      ∨ (∃ p, message = some p ∧ isBinary p = true ∧ persists env p writeErr = false)) :
    ∃ text,
      sendsOf (handle env clients later ws message writeErr) = [(ws, errorEnvelope text)]
      ∧ readField (errorEnvelope text) "type" = some (.str "error")
      ∧ readField (errorEnvelope text) "payload" = some (.str text)
      ∧ (message = none → text = "Invalid message format")
      ∧ sendCount (handle env clients later ws message writeErr) ws = 1
      ∧ ∀ id, id ≠ ws → sendCount (handle env clients later ws message writeErr) id = 0 := by
  have key : ∃ text,
      sendsOf (handle env clients later ws message writeErr) = [(ws, errorEnvelope text)]
      ∧ (message = none → text = "Invalid message format") := by
    rcases hfail with h | ⟨p, h, h1, h2⟩ | ⟨p, h, h1, h2⟩
    · subst h
      exact ⟨"Invalid message format", rfl, fun _ => rfl⟩
    · subst h
      rw [handle_unknown env clients later ws p writeErr h1 h2]
      exact ⟨_, rfl, fun h => by cases h⟩
    · subst h
      obtain ⟨text, ht⟩ := handle_binary_fails env clients later ws p writeErr h1 h2
      exact ⟨text, ht, fun h => by cases h⟩
  obtain ⟨text, hs, hp⟩ := key
  refine ⟨text, hs, ?_, ?_, hp, ?_, ?_⟩
  · simp [errorEnvelope, stringify, readField, lookupField]
  · simp [errorEnvelope, stringify, readField, lookupField]
  · simp [sendCount, hs]
  · intro id hid
    simp [sendCount, hs, Ne.symm hid]

/-- C4 at a concrete input: a frame from session 1 that is not JSON. -/
theorem failure_reported_to_originator_only_witness :
    ∃ text,
      sendsOf (handle demoEnv demoClients demoClients 1 none false) = [(1, errorEnvelope text)]
      ∧ readField (errorEnvelope text) "type" = some (.str "error")
      ∧ readField (errorEnvelope text) "payload" = some (.str text)
      ∧ ((none : Option Json) = none → text = "Invalid message format")
      ∧ sendCount (handle demoEnv demoClients demoClients 1 none false) 1 = 1
      ∧ ∀ id, id ≠ 1 → sendCount (handle demoEnv demoClients demoClients 1 none false) id = 0 :=
  failure_reported_to_originator_only demoEnv demoClients demoClients 1 none false (Or.inl rfl)

/-! ## The client: reconnection (C6, C7, C8) -/

theorem timersOf_append (xs ys : List ClientEffect) :
    timersOf (xs ++ ys) = timersOf xs ++ timersOf ys := by
  induction xs with
  | nil => rfl
  | cons x rest ih => cases x <;> simp [timersOf, ih]

theorem socketsOf_append (xs ys : List ClientEffect) :
    socketsOf (xs ++ ys) = socketsOf xs ++ socketsOf ys := by
  induction xs with
  | nil => rfl
  | cons x rest ih => cases x <;> simp [socketsOf, ih]

theorem failedRetry_last (w : World) (x : Nat) (hp : w.pending = [x])
    (hmax : ¬ w.client.reconnectAttempts < w.client.maxReconnectAttempts) :
    w.failedRetry.client = { w.client with ws := some w.nextCall, isConnected := false }
    ∧ w.failedRetry.pending = []
    ∧ w.failedRetry.trace
        = w.trace ++ [ClientEffect.newWebSocket w.nextCall, ClientEffect.reject w.nextCall]
    ∧ w.failedRetry.nextCall = w.nextCall + 1 := by
  simp [World.failedRetry, World.fireTimer, World.failedAttempt, World.errorEvent,
    World.closeEvent, World.perform, hp, LANBridge.timerCallback, LANBridge.connect,
    LANBridge.onerror, LANBridge.onclose, LANBridge.attemptReconnect, hmax, timersOf]

theorem failedRetry_again (w : World) (x : Nat) (hp : w.pending = [x])
    (hlt : w.client.reconnectAttempts < w.client.maxReconnectAttempts) :
    w.failedRetry.client.reconnectAttempts = w.client.reconnectAttempts + 1
    ∧ w.failedRetry.client.maxReconnectAttempts = w.client.maxReconnectAttempts
    ∧ w.failedRetry.client.reconnectDelay = w.client.reconnectDelay
    ∧ w.failedRetry.pending = [w.client.reconnectDelay * (w.client.reconnectAttempts + 1)]
    ∧ w.failedRetry.trace
        = w.trace ++ [ClientEffect.newWebSocket w.nextCall, ClientEffect.reject w.nextCall,
            ClientEffect.setTimeout (w.client.reconnectDelay * (w.client.reconnectAttempts + 1))]
    ∧ w.failedRetry.nextCall = w.nextCall + 1 := by
  simp [World.failedRetry, World.fireTimer, World.failedAttempt, World.errorEvent,
    World.closeEvent, World.perform, hp, LANBridge.timerCallback, LANBridge.connect,
    LANBridge.onerror, LANBridge.onclose, LANBridge.attemptReconnect, hlt, timersOf]

theorem retryLoop_quiet (fuel : Nat) (w : World) (hp : w.pending = []) :
    World.retryLoop fuel w = w := by
  cases fuel with
  | zero => rfl
  | succ n => simp [World.retryLoop, hp]

theorem retryLoop_runs (r : Nat) : ∀ (w : World) (x fuel : Nat),
    w.pending = [x] → w.client.reconnectAttempts + r = w.client.maxReconnectAttempts →
    r + 1 ≤ fuel →
    (World.retryLoop fuel w).pending = []
    ∧ timersOf (World.retryLoop fuel w).trace
        = timersOf w.trace
          ++ (List.range' (w.client.reconnectAttempts + 1) r).map
              (fun n => w.client.reconnectDelay * n)
    ∧ socketsOf (World.retryLoop fuel w).trace
        = socketsOf w.trace ++ List.range' w.nextCall (r + 1)
    ∧ (World.retryLoop fuel w).client.reconnectAttempts = w.client.maxReconnectAttempts
    ∧ (World.retryLoop fuel w).client.isConnected = false := by
  induction r with
  | zero =>
    intro w x fuel hp ha hf
    obtain ⟨n, rfl⟩ : ∃ n, fuel = n + 1 := ⟨fuel - 1, by omega⟩
    have hmax : ¬ w.client.reconnectAttempts < w.client.maxReconnectAttempts := by omega
    obtain ⟨h1, h2, h3, h4⟩ := failedRetry_last w x hp hmax
    have hstep : World.retryLoop (n + 1) w = w.failedRetry := by
      simp [World.retryLoop, hp, retryLoop_quiet n _ h2]
    rw [hstep, h2, h3, h1]
    simp [timersOf_append, socketsOf_append, timersOf, socketsOf]
    omega
  | succ r ih =>
    intro w x fuel hp ha hf
    obtain ⟨n, rfl⟩ : ∃ n, fuel = n + 1 := ⟨fuel - 1, by omega⟩
    have hlt : w.client.reconnectAttempts < w.client.maxReconnectAttempts := by omega
    obtain ⟨h1, h1m, h1d, h2, h3, h4⟩ := failedRetry_again w x hp hlt
    have hstep : World.retryLoop (n + 1) w = World.retryLoop n w.failedRetry := by
      simp [World.retryLoop, hp]
    have hrec := ih w.failedRetry _ n h2 (by rw [h1, h1m]; omega) (by omega)
    rw [hstep]
    obtain ⟨g1, g2, g3, g4, g5⟩ := hrec
    refine ⟨g1, ?_, ?_, ?_, g5⟩
    · rw [g2, h3, h1, h1d]
      simp [timersOf_append, timersOf, List.range'_succ]
    · rw [g3, h3, h4]
      simp [socketsOf_append, socketsOf, List.range'_succ]
    · rw [g4, h1m]

theorem failedRetry_bounded (w : World)
    (h : w.client.reconnectAttempts ≤ w.client.maxReconnectAttempts) :
    w.failedRetry.client.reconnectAttempts ≤ w.failedRetry.client.maxReconnectAttempts
    ∧ w.failedRetry.client.maxReconnectAttempts = w.client.maxReconnectAttempts := by
  unfold World.failedRetry World.fireTimer World.failedAttempt World.errorEvent World.closeEvent
  cases hp : w.pending <;>
    by_cases hlt : w.client.reconnectAttempts < w.client.maxReconnectAttempts <;>
    simp [World.perform, LANBridge.timerCallback, LANBridge.connect, LANBridge.onerror,
      LANBridge.onclose, LANBridge.attemptReconnect, hlt] <;> omega

theorem retryLoop_bounded (fuel : Nat) : ∀ (w : World),
    w.client.reconnectAttempts ≤ w.client.maxReconnectAttempts →
    (World.retryLoop fuel w).client.reconnectAttempts ≤ w.client.maxReconnectAttempts
    ∧ (World.retryLoop fuel w).client.maxReconnectAttempts = w.client.maxReconnectAttempts := by
  induction fuel with
  | zero => intro w h; exact ⟨h, rfl⟩
  | succ n ih =>
    intro w h
    cases hp : w.pending with
    | nil => rw [retryLoop_quiet _ w hp]; exact ⟨h, rfl⟩
    | cons x rest =>
      have hstep : World.retryLoop (n + 1) w = World.retryLoop n w.failedRetry := by
        simp [World.retryLoop, hp]
      obtain ⟨b1, b2⟩ := failedRetry_bounded w h
      obtain ⟨i1, i2⟩ := ih w.failedRetry b1
      rw [hstep]
      exact ⟨by omega, by omega⟩

theorem closeEvent_first (c : LANBridge) (n : Nat) (h0 : c.reconnectAttempts = 0)
    (hpos : 0 < c.maxReconnectAttempts) :
    (World.start c n).closeEvent.client.reconnectAttempts = 1
    ∧ (World.start c n).closeEvent.client.maxReconnectAttempts = c.maxReconnectAttempts
    ∧ (World.start c n).closeEvent.client.reconnectDelay = c.reconnectDelay
    ∧ (World.start c n).closeEvent.pending = [c.reconnectDelay * 1]
    ∧ (World.start c n).closeEvent.trace = [ClientEffect.setTimeout (c.reconnectDelay * 1)]
    ∧ (World.start c n).closeEvent.nextCall = n := by
  simp [World.start, World.closeEvent, World.perform, LANBridge.onclose,
    LANBridge.attemptReconnect, h0, hpos, timersOf]

theorem closeEvent_none (c : LANBridge) (n : Nat) (h0 : c.reconnectAttempts = 0)
    (hzero : c.maxReconnectAttempts = 0) :
    (World.start c n).closeEvent = { World.start c n with client := { c with isConnected := false } } := by
  simp [World.start, World.closeEvent, World.perform, LANBridge.onclose,
    LANBridge.attemptReconnect, h0, hzero, timersOf]

/-- C6: a connected client with attempt counter 0 whose connection closes
unsolicited, and whose retries all fail, sets exactly `maxReconnectAttempts`
timers, the n-th with delay `reconnectDelay * n`, makes exactly that many retry
connects, and then has no timer pending: running on changes nothing.  At no
point of the run does the counter exceed `maxReconnectAttempts`. -/
theorem reconnect_schedule_linear_and_capped (c : LANBridge) (n fuel : Nat)
    (hconn : c.isConnected = true) (h0 : c.reconnectAttempts = 0)
    (hfuel : c.maxReconnectAttempts ≤ fuel) :
    timersOf (World.retryLoop fuel (World.start c n).closeEvent).trace
        = (List.range c.maxReconnectAttempts).map (fun i => c.reconnectDelay * (i + 1))
    ∧ socketsOf (World.retryLoop fuel (World.start c n).closeEvent).trace
        = (List.range c.maxReconnectAttempts).map (fun i => n + i)
    ∧ (World.retryLoop fuel (World.start c n).closeEvent).pending = []
    ∧ (World.retryLoop fuel (World.start c n).closeEvent).client.isConnected = false
    ∧ (World.retryLoop fuel (World.start c n).closeEvent).client.reconnectAttempts
        = c.maxReconnectAttempts
    ∧ ∀ j, (World.retryLoop j (World.start c n).closeEvent).client.reconnectAttempts
        ≤ c.maxReconnectAttempts := by
  have _ := hconn
  rcases Nat.eq_zero_or_pos c.maxReconnectAttempts with hz | hpos
  · have hw := closeEvent_none c n h0 hz
    have hq : ∀ j, World.retryLoop j (World.start c n).closeEvent
        = (World.start c n).closeEvent := fun j => retryLoop_quiet j _ (by rw [hw]; rfl)
    simp only [hq]
    rw [hw, hz]
    simp [World.start, timersOf, socketsOf, h0]
  · obtain ⟨e1, e2, e3, e4, e5, e6⟩ := closeEvent_first c n h0 hpos
    obtain ⟨g1, g2, g3, g4, g5⟩ := retryLoop_runs (c.maxReconnectAttempts - 1)
      (World.start c n).closeEvent _ fuel e4 (by rw [e1, e2]; omega) (by omega)
    refine ⟨?_, ?_, g1, g5, by rw [g4, e2], ?_⟩
    · rw [g2, e5, e1, e3]
      obtain ⟨m, hm⟩ : ∃ m, c.maxReconnectAttempts = m + 1 := ⟨_, (Nat.succ_pred_eq_of_pos hpos).symm⟩
      rw [hm]
      simp [timersOf, List.range_succ_eq_map, List.range'_eq_map_range]
      intro a _
      left
      omega
    · rw [g3, e5, e6]
      obtain ⟨m, hm⟩ : ∃ m, c.maxReconnectAttempts = m + 1 := ⟨_, (Nat.succ_pred_eq_of_pos hpos).symm⟩
      rw [hm]
      simp [socketsOf, List.range'_eq_map_range]
    · intro j
      have hb := retryLoop_bounded j (World.start c n).closeEvent (by rw [e1, e2]; omega)
      rw [e2] at hb
      exact hb.1

/-- C6 at the default configuration: five retries, after 1000, 2000, 3000, 4000
and 5000 ms, and none after that. -/
theorem reconnect_schedule_linear_and_capped_witness :
    demoConnected.isConnected = true ∧ demoConnected.reconnectAttempts = 0
    ∧ demoConnected.maxReconnectAttempts ≤ 8
    ∧ (List.range demoConnected.maxReconnectAttempts).map
        (fun i => demoConnected.reconnectDelay * (i + 1)) = [1000, 2000, 3000, 4000, 5000]
    ∧ (timersOf (World.retryLoop 8 (World.start demoConnected 1).closeEvent).trace
        = (List.range demoConnected.maxReconnectAttempts).map
            (fun i => demoConnected.reconnectDelay * (i + 1))
      ∧ socketsOf (World.retryLoop 8 (World.start demoConnected 1).closeEvent).trace
        = (List.range demoConnected.maxReconnectAttempts).map (fun i => 1 + i)
      ∧ (World.retryLoop 8 (World.start demoConnected 1).closeEvent).pending = []
      ∧ (World.retryLoop 8 (World.start demoConnected 1).closeEvent).client.isConnected = false
      ∧ (World.retryLoop 8 (World.start demoConnected 1).closeEvent).client.reconnectAttempts
        = demoConnected.maxReconnectAttempts
      ∧ ∀ j, (World.retryLoop j (World.start demoConnected 1).closeEvent).client.reconnectAttempts
        ≤ demoConnected.maxReconnectAttempts) :=
  ⟨by decide, by decide, by decide, by decide,
    reconnect_schedule_linear_and_capped demoConnected 1 8 (by decide) (by decide) (by decide)⟩

/-- C7 fails on the code: on a connected client with the default configuration,
`disconnect()` closes socket 0, and the close event that results runs `onclose`,
which raises the attempt counter to 1 and sets a reconnect timer of 1000 ms; when
that timer fires the client opens a new socket, and once it is established the
client is connected again. -/
theorem disconnect_close_event_schedules_reconnect :
    (World.start demoConnected 1).disconnectCall.trace = [ClientEffect.close 0]
    ∧ (World.start demoConnected 1).disconnectCall.client.isConnected = false
    ∧ (World.start demoConnected 1).disconnectCall.client.reconnectAttempts = 0
    ∧ (World.start demoConnected 1).disconnectCall.closeEvent.pending = [1000]
    ∧ (World.start demoConnected 1).disconnectCall.closeEvent.client.reconnectAttempts = 1
    ∧ (World.start demoConnected 1).disconnectCall.closeEvent.fireTimer.client.ws = some 1
    ∧ ((World.start demoConnected 1).disconnectCall.closeEvent.fireTimer.openEvent 1).client.isConnected
        = true := by
  refine ⟨rfl, by decide, by decide, by decide, by decide, by decide, by decide⟩

/-- C8 fails as stated: on a fresh client, an explicit `connect()` whose attempt
fails (the transport fires `error`, then `close`) rejects the promise, and the
close event raises the attempt counter to 1 and sets a retry timer of 1000 ms. -/
theorem failed_first_connect_is_retried :
    ((World.start (LANBridge.new LANBridge.defaultUrl) 0).connectCall.failedAttempt 0).trace
        = [ClientEffect.newWebSocket 0, ClientEffect.reject 0, ClientEffect.setTimeout 1000]
    ∧ ((World.start (LANBridge.new LANBridge.defaultUrl) 0).connectCall.failedAttempt 0).pending
        = [1000]
    ∧ ((World.start (LANBridge.new LANBridge.defaultUrl) 0).connectCall.failedAttempt
        0).client.reconnectAttempts = 1
    ∧ (LANBridge.new LANBridge.defaultUrl).reconnectAttempts = 0 := by
  refine ⟨rfl, by decide, by decide, by decide⟩

/-- C8 as amended: an explicit `connect()` whose attempt fails rejects its
promise; the `error` handler itself changes no field and sets no timer, and the
client is left not connected.  The `close` event that follows runs the
reconnection step as for any close: while the attempt counter is below
`maxReconnectAttempts` it is incremented and a retry is set after `reconnectDelay`
times the new counter; only at the cap is nothing scheduled. -/
theorem failed_connect_rejects_and_close_runs_reconnect (c : LANBridge) (n : Nat) :
    (c.connect n false).1.onerror n = ((c.connect n false).1, [ClientEffect.reject n])
    ∧ ((World.start c n).connectCall.failedAttempt n).client.isConnected = false
    ∧ ((World.start c n).connectCall.failedAttempt n).client.reconnectAttempts
        = (if c.reconnectAttempts < c.maxReconnectAttempts then c.reconnectAttempts + 1
           else c.reconnectAttempts)
    ∧ ((World.start c n).connectCall.failedAttempt n).pending
        = (if c.reconnectAttempts < c.maxReconnectAttempts
           then [c.reconnectDelay * (c.reconnectAttempts + 1)] else [])
    ∧ ((World.start c n).connectCall.failedAttempt n).trace
        = [ClientEffect.newWebSocket n, ClientEffect.reject n]
          ++ (if c.reconnectAttempts < c.maxReconnectAttempts
              then [ClientEffect.setTimeout (c.reconnectDelay * (c.reconnectAttempts + 1))]
              else []) := by
  by_cases hlt : c.reconnectAttempts < c.maxReconnectAttempts <;>
    simp [World.start, World.connectCall, World.failedAttempt, World.errorEvent,
      World.closeEvent, World.perform, LANBridge.connect, LANBridge.onerror, LANBridge.onclose,
      LANBridge.attemptReconnect, hlt, timersOf]

/-! ## The client: sending while not connected (C9) -/

/-- C9: on a client that is not connected, `sendText` returns `false` and
`sendFile` rejects its promise, whatever the argument; neither transmits
anything on a socket and neither changes a field of the client. -/
theorem send_while_not_connected_fails (c : LANBridge) (text : JsVal) (now : Nat) (file : File)
    (h : c.isConnected = false) :
    c.sendText text now = (c, [], SendTextResult.returned false)
    ∧ c.sendFile file = (c, [ClientEffect.rejectSend "Not connected to server"])
    ∧ transmissionsOf (c.sendText text now).2.1 = []
    ∧ transmissionsOf (c.sendFile file).2 = [] := by
  simp [LANBridge.sendText, LANBridge.sendFile, h, transmissionsOf]

/-- C9 on a freshly constructed client. -/
theorem send_while_not_connected_fails_witness :
    (LANBridge.new LANBridge.defaultUrl).isConnected = false
    ∧ ((LANBridge.new LANBridge.defaultUrl).sendText (some (.str "hello")) 17
        = (LANBridge.new LANBridge.defaultUrl, [], SendTextResult.returned false)
      ∧ (LANBridge.new LANBridge.defaultUrl).sendFile { name := "pic.png", type := "image/png" }
        = (LANBridge.new LANBridge.defaultUrl,
            [ClientEffect.rejectSend "Not connected to server"])
      ∧ transmissionsOf
          ((LANBridge.new LANBridge.defaultUrl).sendText (some (.str "hello")) 17).2.1 = []
      ∧ transmissionsOf
          ((LANBridge.new LANBridge.defaultUrl).sendFile
            { name := "pic.png", type := "image/png" }).2 = []) :=
  ⟨by decide,
    send_while_not_connected_fails (LANBridge.new LANBridge.defaultUrl) (some (.str "hello")) 17
      { name := "pic.png", type := "image/png" } (by decide)⟩

/-! ## The client: handler registry (C10) -/

end LanBridge
